import Mathlib

/-!
Shallow embedding of `src/index.py`: a single-endpoint Flask gateway
(`chat_handler`, `POST /`) that validates an inbound JSON body, forwards the
prompt to the Gemini generative-content service with a fixed system
instruction and a fixed structured-output schema, and maps the outcome to a
uniform JSON envelope.

Modelling choices:
- Python/JSON values reaching the handler are modelled by the inductive
  `Json` (numbers as `Int`; floats play no role in any claim).
- `request.get_json()` is an external Flask call; its result is an input of
  the handler: `Except Exn Json`.  Per Flask's documented behaviour (default
  `silent=False`), a body that is not valid JSON makes `get_json()` raise a
  `BadRequest` exception, which lands in the handler's generic
  `except Exception` clause; the `Exn` value carries `str(e)` and the
  traceback text.
- The upstream SDK call `client.models.generate_content(...)` is an input
  function `upstream : Json → UpstreamOutcome`: it may succeed with an
  optional response text (`api_response.text` is optional in the SDK),
  raise an `APIError` (with a `.message` attribute and a string form), or
  raise any other exception.
- Python truthiness (`not data`), the membership test (`'txt' in data`), the
  subscript `data['txt']`, `len(txt)` and the slice `txt[:100]` are embedded
  including the `TypeError`s they raise on operands of the wrong type, since
  those exceptions are caught by the same `except Exception` clause.
- The handler result records the HTTP status code, the `jsonify`-ed body,
  the list of upstream calls made (with their full configuration) and the
  server-side log lines (`print` / `traceback.print_exc()` output), so that
  claims about "no upstream call" and "logged server-side only" are statable.
-/

namespace RobloxGateway

/-- JSON / Python values as returned by `request.get_json()` and consumed by
`jsonify`. -/
inductive Json where
  | null
  | bool (b : Bool)
  | num (n : Int)
  | str (s : String)
  | arr (elems : List Json)
  | obj (fields : List (String × Json))

/-- A Python exception, reduced to what the handler can observe: `str(e)`
(interpolated into the returned message) and the traceback text (printed by
`traceback.print_exc()`). -/
structure Exn where
  msg : String
  trace : String

/-- Python truthiness of a value, as used by `not data`. -/
def truthy : Json → Bool
  | .null => false
  | .bool b => b
  | .num n => !(n == 0)
  | .str s => !(s == "")
  | .arr xs => !xs.isEmpty
  | .obj fs => !fs.isEmpty

/-- Lookup of a key in a Python dict, modelled as first match in the field
list (a Python dict cannot hold a key twice). -/
def pyDictGet (k : String) : List (String × Json) → Option Json
  | [] => none
  | (k2, v) :: rest => if k2 == k then some v else pyDictGet k rest

/-- The membership test `k in data`.  On a dict it tests the keys, on a list
it tests string equality with the elements (a Python `str` equals no value of
another type), on a string it is the substring test; on `None`, booleans and
numbers it raises `TypeError`. -/
def pyContains (k : String) : Json → Except Exn Bool
  | .obj fs => .ok (pyDictGet k fs).isSome
  | .arr xs => .ok (xs.any (fun j => match j with | .str s => s == k | _ => false))
  | .str s => .ok (decide ((k.toList).IsInfix s.toList))
  | .num _ => .error ⟨"argument of type 'int' is not iterable", "TypeError"⟩
  | .bool _ => .error ⟨"argument of type 'bool' is not iterable", "TypeError"⟩
  | .null => .error ⟨"argument of type 'NoneType' is not iterable", "TypeError"⟩

/-- The subscript `data[k]` with a string key: dict lookup; `TypeError` on
every non-dict (lists and strings demand integer indices). -/
def pySubscript (k : String) : Json → Except Exn Json
  | .obj fs =>
      match pyDictGet k fs with
      | some v => .ok v
      | none => .error ⟨"KeyError: " ++ k, "KeyError"⟩
  | .str _ => .error ⟨"string indices must be integers", "TypeError"⟩
  | .arr _ => .error ⟨"list indices must be integers or slices, not str", "TypeError"⟩
  | _ => .error ⟨"object is not subscriptable", "TypeError"⟩

/-- `len(x)`: defined on strings, lists and dicts; `TypeError` otherwise. -/
def pyLen : Json → Except Exn Nat
  | .str s => .ok s.length
  | .arr xs => .ok xs.length
  | .obj fs => .ok fs.length
  | _ => .error ⟨"object has no len()", "TypeError"⟩

/-- The slice `x[:n]`: defined on strings and lists; `TypeError` otherwise
(dicts reject slice keys). -/
def pySlice (n : Nat) : Json → Except Exn Json
  | .str s => .ok (.str (s.take n))
  | .arr xs => .ok (.arr (xs.take n))
  | _ => .error ⟨"unhashable type: 'slice'", "TypeError"⟩

/-- `str(x)` as far as the log line needs it (containers abbreviated; no
claim inspects the preview text of a container). -/
def pyStr : Json → String
  | .str s => s
  | .num n => toString n
  | .bool true => "True"
  | .bool false => "False"
  | .null => "None"
  | .arr _ => "[...]"
  | .obj _ => "(dict)"

/-- The field types appearing in `types.Schema` in the source. -/
inductive SchemaType where
  | OBJECT
  | STRING
  | INTEGER
  | BOOLEAN
  deriving DecidableEq, Repr

/-- A leaf `types.Schema(type=..., description=...)` of the source. -/
structure FieldSchema where
  type : SchemaType
  description : String
  deriving DecidableEq, Repr

/-- The top-level object schema `types.Schema(type=OBJECT, properties=...,
required=...)` of the source. -/
structure ObjectSchema where
  type : SchemaType
  properties : List (String × FieldSchema)
  required : List String
  deriving DecidableEq, Repr

/-- `NPC_RESPONSE_SCHEMA` of `src/index.py`, fields and descriptions
verbatim. -/
def NPC_RESPONSE_SCHEMA : ObjectSchema :=
  { type := .OBJECT
  , properties :=
      [ ("text", ⟨.STRING, "NPCの会話応答テキスト。セリフ以外は含めない。"⟩)
      , ("newIntimacy", ⟨.INTEGER, "会話後の親密度の新しい値（-100から100の範囲）。"⟩)
      , ("newEmotion", ⟨.STRING, "会話後のNPCの新しい感情の状態。例: '通常', '喜び', '怒り', '悲しみ', '驚き' など。"⟩)
      , ("newTask", ⟨.STRING, "NPCの現在の行動タスク。タスクがない場合は 'なし' と記述。"⟩)
      , ("endChat", ⟨.BOOLEAN, "プレイヤーが「さようなら」など会話を終える意志を示した場合、またはNPCが会話を強く終了したい場合にtrueにする。それ以外はfalse。"⟩)
      , ("newDestination", ⟨.STRING, "会話の結果、NPCが向かうべき目的地。プロンプトで提供されたリストから選択するか、移動しない場合は 'なし' と記述。"⟩)
      , ("selectedTool", ⟨.STRING, "NPCがプレイヤーの要求を満たすために使用すべきツール名。プロンプトで提供された利用可能なツールリストから選び、不要な場合は 'なし' と記述。"⟩)
      ]
  , required := ["text", "newIntimacy", "newEmotion", "newTask", "endChat", "newDestination", "selectedTool"]
  }

/-- The `system_instruction` string built in `chat_handler`, the Python
adjacent string literals concatenated. -/
def fixed_system_instruction : String :=
  "あなたはゲーム内のNPCであり、Robloxのコミュニティガイドラインを厳守する必要があります。"
  ++ "いかなる不適切な、暴力的、差別的な、または個人を特定できる情報は絶対に生成してはいけません。"
  ++ "**プロンプトにはNPCの氏名（姓・名）、性別、および年齢が提供されています。これらの情報を含めたNPCのペルソナを厳密に維持し、会話を応答してください。**親密度の値に応じて会話のトーンを変えても構いません。"
  ++ "プロンプト全体を文脈として扱い、指示された厳密なJSON形式で応答してください。"
  ++ "プレイヤーが明確に会話を終了させようとした場合（例:「さようなら」「もう行くね」など）、またはNPC自身が会話を強く打ち切りたい場合、応答JSONの 'endChat' フィールドを true に設定してください。それ以外は false に設定してください。"
  ++ "プロンプト内で提供された目的地リストを考慮し、NPCの次の行動として適切な目的地を 'newDestination' フィールドに設定してください。移動が必要ない場合は 'なし' を設定してください。"
  ++ "**プロンプト内で提供されたツールリストを考慮し、NPCがプレイヤーの要求や現在の状況に対応するためにツールを使用すべきと判断した場合、そのツール名を 'selectedTool' フィールドに設定してください。ツールが不要な場合は 'なし' を設定してください。**"
  ++ "名前は聞かれた時以外応答に使わないでください。"

/-- `types.GenerateContentConfig(...)` as built in `chat_handler`. -/
structure GenerateContentConfig where
  system_instruction : String
  response_mime_type : String
  response_schema : ObjectSchema
  deriving DecidableEq, Repr

/-- The configuration `chat_handler` builds: the fixed instruction, JSON mime
type and the structured-output schema. -/
def npcConfig : GenerateContentConfig :=
  { system_instruction := fixed_system_instruction
  , response_mime_type := "application/json"
  , response_schema := NPC_RESPONSE_SCHEMA }

/-- One call to `client.models.generate_content`, with everything the source
passes. -/
structure UpstreamCall where
  model : String
  contents : Json
  config : GenerateContentConfig

/-- The outcome of the upstream SDK call: success with the optional
`api_response.text`, an `APIError` (carrying `e.message` and `str(e)`), or
any other exception. -/
inductive UpstreamOutcome where
  | success (text : Option String)
  | apiError (message : String) (strForm : String)
  | exn (e : Exn)

/-- What one invocation of `chat_handler` produces: the `jsonify`-ed body,
the HTTP status code, the upstream calls made, and the server-side log
lines. -/
structure HandlerResult where
  body : Json
  status : Nat
  calls : List UpstreamCall
  logs : List String

/-- The `jsonify` bodies of the error branches: status ERROR with a message. -/
def errEnvelope (m : String) : Json :=
  .obj [("status", .str "ERROR"), ("message", .str m)]

/-- `jsonify(status: OK, data: d)` bodies of the source. -/
def okEnvelope (d : Json) : Json :=
  .obj [("status", .str "OK"), ("data", d)]

/-- The `except Exception` clause of `chat_handler`: HTTP 500, message
`"Unexpected Error: " ++ str(e)`, traceback printed to the server log
between the two marker lines. -/
def unexpectedResult (e : Exn) (calls : List UpstreamCall) (logs : List String) : HandlerResult :=
  { body := errEnvelope ("Unexpected Error: " ++ e.msg)
  , status := 500
  , calls := calls
  , logs := logs ++
      [ "--- UNEXPECTED INTERNAL SERVER ERROR ---"
      , e.trace
      , "----------------------------------------" ] }

/-- The 400 response of the validation failure branch. -/
def missingTxtResult : HandlerResult :=
  { body := errEnvelope "Missing 'txt' field in JSON request body."
  , status := 400
  , calls := []
  , logs := [] }

/-- The body of `chat_handler` from the upstream call on: builds the fixed
config, performs the single `generate_content` call and maps its outcome. -/
def invokeUpstream (upstream : Json → UpstreamOutcome) (txt : Json) (logs : List String) : HandlerResult :=
  let call : UpstreamCall := ⟨"gemini-2.5-flash", txt, npcConfig⟩
  match upstream txt with
  | .success text =>
      { body := okEnvelope (match text with | some t => .str t | none => .null)
      , status := 200
      , calls := [call]
      , logs := logs }
  | .apiError message strForm =>
      { body := errEnvelope ("Gemini API Error: " ++ message)
      , status := 500
      , calls := [call]
      , logs := logs ++ ["API Error: " ++ strForm] }
  | .exn e => unexpectedResult e [call] logs

/-- `chat_handler` of `src/index.py`.  Inputs: whether the module-level
`client` was initialized (a `GEMINI_API_KEY` was present at startup), the
result of `request.get_json()`, and the behaviour of the upstream SDK
call. -/
def chat_handler (clientInitialized : Bool) (getJson : Except Exn Json)
    (upstream : Json → UpstreamOutcome) : HandlerResult :=
  if !clientInitialized then
    { body := errEnvelope "API client is not initialized (Missing API Key)."
    , status := 200
    , calls := []
    , logs := [] }
  else
    match getJson with
    | .error e => unexpectedResult e [] []
    | .ok data =>
      if !truthy data then missingTxtResult
      else
        match pyContains "txt" data with
        | .error e => unexpectedResult e [] []
        | .ok false => missingTxtResult
        | .ok true =>
          match pySubscript "txt" data with
          | .error e => unexpectedResult e [] []
          | .ok txt =>
            match pyLen txt with
            | .error e => unexpectedResult e [] []
            | .ok n =>
              match pySlice 100 txt with
              | .error e => unexpectedResult e [] []
              | .ok preview =>
                invokeUpstream upstream txt
                  ["Received prompt (length " ++ toString n ++ "): " ++ pyStr preview ++ "..."]

/-- The module-level mutable state visible to `chat_handler`: only the
`client` handle, set once at startup and never written afterwards.  The
handler returns the (unchanged) state, making sequential processing
explicit. -/
structure ServerState where
  clientInitialized : Bool

/-- One request processed against the server state: the source handler reads
the global `client` and writes no global, so the state passes through
unchanged. -/
def handleRequest (st : ServerState) (getJson : Except Exn Json)
    (upstream : Json → UpstreamOutcome) : HandlerResult × ServerState :=
  (chat_handler st.clientInitialized getJson upstream, st)

/-- The response-envelope invariant: a JSON object whose `status` is the
string OK with a `data` field and no `message`, or the string ERROR with a
string `message` and no `data`. -/
def isWellFormedEnvelope : Json → Bool
  | .obj fields =>
      match pyDictGet "status" fields, pyDictGet "data" fields, pyDictGet "message" fields with
      | some (.str "OK"), some _, none => true
      | some (.str "ERROR"), none, some (.str _) => true
      | _, _, _ => false
  | _ => false

/-! Helper lemmas shared by the claim theorems. -/

/-- A dict in which a key is found is a non-empty dict, hence truthy. -/
theorem truthy_obj_of_get (k : String) (v : Json) (fs : List (String × Json))
    (h : pyDictGet k fs = some v) : truthy (.obj fs) = true := by
  cases fs with
  | nil => simp [pyDictGet] at h
  | cons p rest => simp [truthy]

/-- Reduction of `chat_handler` on the validated path: initialized client,
JSON object body whose key txt holds the string `s`.  The handler reaches
the upstream invocation with prompt `s` and the preview log line. -/
theorem chat_handler_validated (fs : List (String × Json)) (s : String)
    (up : Json → UpstreamOutcome) (h : pyDictGet "txt" fs = some (.str s)) :
    chat_handler true (.ok (.obj fs)) up =
      invokeUpstream up (.str s)
        ["Received prompt (length " ++ toString s.length ++ "): " ++ s.take 100 ++ "..."] := by
  have ht := truthy_obj_of_get "txt" (.str s) fs h
  simp [chat_handler, ht, pyContains, h, pySubscript, pyLen, pySlice, pyStr]

/-- Whatever the inputs, the call list is empty or a single call with the
fixed model and the fixed configuration. -/
theorem calls_shape (b : Bool) (g : Except Exn Json) (up : Json → UpstreamOutcome) :
    (chat_handler b g up).calls = [] ∨
      ∃ txt, (chat_handler b g up).calls = [⟨"gemini-2.5-flash", txt, npcConfig⟩] := by
  unfold chat_handler invokeUpstream unexpectedResult missingTxtResult
  repeat' split
  all_goals first
    | exact Or.inl rfl
    | exact Or.inr ⟨_, rfl⟩

/-- The error envelope satisfies the envelope invariant. -/
theorem wf_errEnvelope (m : String) : isWellFormedEnvelope (errEnvelope m) = true := rfl

/-- The success envelope satisfies the envelope invariant. -/
theorem wf_okEnvelope (d : Json) : isWellFormedEnvelope (okEnvelope d) = true := rfl

/-! The claims. -/

/-- Claim C1, counterexample: with the client initialized and a body that is
not valid JSON, `request.get_json()` raises (Flask default `silent=False`),
the exception lands in the generic `except Exception` clause, and the
handler does not return HTTP 400 as the claim states (it returns 500). -/
theorem claim_C1_counterexample :
    ¬ ((chat_handler true
        (.error ⟨"400 Bad Request: Failed to decode JSON object: Expecting value: line 1 column 1 (char 0)",
                 "Traceback (most recent call last): ..."⟩)
        (fun _ => .success (some "unused"))).status = 400) := by
  decide

/-- Claim C1 as amended: a body that fails JSON parsing raises inside the
`try` block and yields the unexpected-error response (HTTP 500, message
prefixed with Unexpected Error, no upstream call); a body that parses to a
falsy value, or to a value on which the membership test for txt returns
false, yields HTTP 400 with the exact missing-txt envelope and no upstream
call. -/
theorem claim_C1_amended :
    (∀ (e : Exn) (up : Json → UpstreamOutcome),
        chat_handler true (.error e) up = unexpectedResult e [] []) ∧
    (∀ (d : Json) (up : Json → UpstreamOutcome), truthy d = false →
        chat_handler true (.ok d) up = missingTxtResult) ∧
    (∀ (d : Json) (up : Json → UpstreamOutcome), pyContains "txt" d = .ok false →
        chat_handler true (.ok d) up = missingTxtResult) := by
  refine ⟨fun e up => by simp [chat_handler], fun d up h => by simp [chat_handler, h], ?_⟩
  intro d up h
  cases ht : truthy d
  · simp [chat_handler, ht]
  · simp [chat_handler, ht, h]

/-- Claim C1 witness: a parsed object body without a txt key gets the 400
missing-txt response. -/
theorem claim_C1_witness :
    chat_handler true (.ok (.obj [("msg", .str "hello")]))
      (fun _ => .success (some "t")) = missingTxtResult :=
  claim_C1_amended.2.2 (.obj [("msg", .str "hello")]) (fun _ => .success (some "t")) rfl

/-- Claim C2, counterexample: a body whose txt is the empty string is NOT
rejected; the validation only tests presence, and an upstream call is made
(the call list is non-empty). -/
theorem claim_C2_counterexample :
    ¬ ((chat_handler true (.ok (.obj [("txt", .str "")]))
        (fun _ => .success (some "t"))).calls = []) := by
  intro h
  exact absurd (congrArg List.length h) (by decide)

/-- Claim C2 as amended: a request whose txt field holds the empty string
passes validation, and exactly one upstream call is made, carrying the empty
prompt and the fixed configuration; only absence of the txt key (or a falsy
or unparsable body) is rejected before side effects. -/
theorem claim_C2_amended (fs : List (String × Json)) (up : Json → UpstreamOutcome)
    (h : pyDictGet "txt" fs = some (.str "")) :
    (chat_handler true (.ok (.obj fs)) up).calls =
      [⟨"gemini-2.5-flash", .str "", npcConfig⟩] := by
  rw [chat_handler_validated fs "" up h]
  cases hup : up (.str "") <;> simp [invokeUpstream, hup, unexpectedResult]

/-- Claim C2 witness: the amended statement at the concrete body mapping txt
to the empty string. -/
theorem claim_C2_witness :
    (chat_handler true (.ok (.obj [("txt", .str "")]))
      (fun _ => .success (some "t"))).calls =
      [⟨"gemini-2.5-flash", .str "", npcConfig⟩] :=
  claim_C2_amended [("txt", .str "")] (fun _ => .success (some "t")) rfl

/-- Claim C3: on a validated request (object body, txt holding string s)
whose upstream call succeeds with text t, the handler returns HTTP 200 and
the envelope with status OK and data exactly the raw upstream string t,
unmodified. -/
theorem claim_C3 (fs : List (String × Json)) (s t : String)
    (up : Json → UpstreamOutcome)
    (h : pyDictGet "txt" fs = some (.str s))
    (hup : up (.str s) = .success (some t)) :
    (chat_handler true (.ok (.obj fs)) up).status = 200 ∧
    (chat_handler true (.ok (.obj fs)) up).body = okEnvelope (.str t) := by
  rw [chat_handler_validated fs s up h]
  simp [invokeUpstream, hup]

/-- Claim C3 witness: the schema-conforming example text is wrapped as-is. -/
theorem claim_C3_witness :
    (chat_handler true (.ok (.obj [("txt", .str "hello npc")]))
      (fun _ => .success (some "npc-json-text"))).status = 200 ∧
    (chat_handler true (.ok (.obj [("txt", .str "hello npc")]))
      (fun _ => .success (some "npc-json-text"))).body = okEnvelope (.str "npc-json-text") :=
  claim_C3 [("txt", .str "hello npc")] "hello npc" "npc-json-text"
    (fun _ => .success (some "npc-json-text")) rfl rfl

/-- Claim C4: on a validated request whose upstream call raises an APIError
with message m, the handler returns HTTP 500 and the envelope with message
Gemini API Error prefix followed by m. -/
theorem claim_C4 (fs : List (String × Json)) (s m sf : String)
    (up : Json → UpstreamOutcome)
    (h : pyDictGet "txt" fs = some (.str s))
    (hup : up (.str s) = .apiError m sf) :
    (chat_handler true (.ok (.obj fs)) up).status = 500 ∧
    (chat_handler true (.ok (.obj fs)) up).body =
      errEnvelope ("Gemini API Error: " ++ m) := by
  rw [chat_handler_validated fs s up h]
  simp [invokeUpstream, hup]

/-- Claim C4 witness: the quota-exceeded example. -/
theorem claim_C4_witness :
    (chat_handler true (.ok (.obj [("txt", .str "hi")]))
      (fun _ => .apiError "quota exceeded" "APIError: quota exceeded")).status = 500 ∧
    (chat_handler true (.ok (.obj [("txt", .str "hi")]))
      (fun _ => .apiError "quota exceeded" "APIError: quota exceeded")).body =
      errEnvelope ("Gemini API Error: " ++ "quota exceeded") :=
  claim_C4 [("txt", .str "hi")] "hi" "quota exceeded" "APIError: quota exceeded"
    (fun _ => .apiError "quota exceeded" "APIError: quota exceeded") rfl rfl

/-- Claim C5: on a validated request whose upstream call raises any other
exception e, the handler returns HTTP 500 with message Unexpected Error
prefix followed by the string form of e; the traceback is written to the
server-side log, and the response body does not depend on the traceback
(two upstreams raising exceptions with the same string form but different
tracebacks produce the same body). -/
theorem claim_C5 (fs : List (String × Json)) (s : String) (e e2 : Exn)
    (up up2 : Json → UpstreamOutcome)
    (h : pyDictGet "txt" fs = some (.str s))
    (hup : up (.str s) = .exn e) (hup2 : up2 (.str s) = .exn e2)
    (hmsg : e2.msg = e.msg) :
    (chat_handler true (.ok (.obj fs)) up).status = 500 ∧
    (chat_handler true (.ok (.obj fs)) up).body =
      errEnvelope ("Unexpected Error: " ++ e.msg) ∧
    e.trace ∈ (chat_handler true (.ok (.obj fs)) up).logs ∧
    (chat_handler true (.ok (.obj fs)) up2).body =
      (chat_handler true (.ok (.obj fs)) up).body := by
  rw [chat_handler_validated fs s up h, chat_handler_validated fs s up2 h]
  simp [invokeUpstream, hup, hup2, unexpectedResult, hmsg]

/-- Claim C5 witness: a timeout-style exception; the traceback string is in
the logs and only the string form reaches the body. -/
theorem claim_C5_witness :
    (chat_handler true (.ok (.obj [("txt", .str "hi")]))
      (fun _ => .exn ⟨"network timeout", "Traceback: TimeoutError"⟩)).status = 500 ∧
    (chat_handler true (.ok (.obj [("txt", .str "hi")]))
      (fun _ => .exn ⟨"network timeout", "Traceback: TimeoutError"⟩)).body =
      errEnvelope ("Unexpected Error: " ++ "network timeout") ∧
    "Traceback: TimeoutError" ∈ (chat_handler true (.ok (.obj [("txt", .str "hi")]))
      (fun _ => .exn ⟨"network timeout", "Traceback: TimeoutError"⟩)).logs ∧
    (chat_handler true (.ok (.obj [("txt", .str "hi")]))
      (fun _ => .exn ⟨"network timeout", "other traceback"⟩)).body =
      (chat_handler true (.ok (.obj [("txt", .str "hi")]))
        (fun _ => .exn ⟨"network timeout", "Traceback: TimeoutError"⟩)).body :=
  claim_C5 [("txt", .str "hi")] "hi"
    ⟨"network timeout", "Traceback: TimeoutError"⟩ ⟨"network timeout", "other traceback"⟩
    (fun _ => .exn ⟨"network timeout", "Traceback: TimeoutError"⟩)
    (fun _ => .exn ⟨"network timeout", "other traceback"⟩) rfl rfl rfl rfl

/-- Claim C6: with the client uninitialized, every request — whatever the
body, even one whose parsing raised, and whatever the upstream behaviour —
returns the missing-key envelope with the default HTTP status 200, no
upstream call and no log line; in particular the result does not depend on
the body at all (it is one constant), so no validation happens first. -/
theorem claim_C6 (getJson : Except Exn Json) (up : Json → UpstreamOutcome) :
    chat_handler false getJson up =
      { body := errEnvelope "API client is not initialized (Missing API Key)."
      , status := 200
      , calls := []
      , logs := [] } := by
  simp [chat_handler]

/-- Claim C7: a validated request (txt present, holding a non-empty string)
triggers exactly one upstream call — a one-element call list, no retries —
whose model, prompt and configuration are exact, the configuration being the
fixed constant carrying the fixed system instruction and the fixed schema,
independent of the prompt. -/
theorem claim_C7 (fs : List (String × Json)) (s : String)
    (up : Json → UpstreamOutcome)
    (h : pyDictGet "txt" fs = some (.str s)) (_hs : s ≠ "") :
    (chat_handler true (.ok (.obj fs)) up).calls =
      [⟨"gemini-2.5-flash", .str s, npcConfig⟩] ∧
    npcConfig.system_instruction = fixed_system_instruction ∧
    npcConfig.response_schema = NPC_RESPONSE_SCHEMA := by
  refine ⟨?_, rfl, rfl⟩
  rw [chat_handler_validated fs s up h]
  cases hup : up (.str s) <;> simp [invokeUpstream, hup, unexpectedResult]

/-- Claim C7 witness: one call with the fixed configuration at a concrete
request. -/
theorem claim_C7_witness :
    (chat_handler true (.ok (.obj [("txt", .str "hello")]))
      (fun _ => .success (some "t"))).calls =
      [⟨"gemini-2.5-flash", .str "hello", npcConfig⟩] ∧
    npcConfig.system_instruction = fixed_system_instruction ∧
    npcConfig.response_schema = NPC_RESPONSE_SCHEMA :=
  claim_C7 [("txt", .str "hello")] "hello" (fun _ => .success (some "t")) rfl
    (by decide)

/-- Claim C8: the schema names all seven fields as required, their declared
types are string, integer, string, string, boolean, string, string, the
configuration requests the JSON mime type with this schema as structured
output, and every upstream call the handler ever makes (the call list is
empty or one call) carries exactly this configuration. -/
theorem claim_C8 :
    NPC_RESPONSE_SCHEMA.required =
      ["text", "newIntimacy", "newEmotion", "newTask", "endChat", "newDestination", "selectedTool"] ∧
    NPC_RESPONSE_SCHEMA.properties.map (fun p => (p.1, p.2.type)) =
      [("text", .STRING), ("newIntimacy", .INTEGER), ("newEmotion", .STRING),
       ("newTask", .STRING), ("endChat", .BOOLEAN), ("newDestination", .STRING),
       ("selectedTool", .STRING)] ∧
    npcConfig.response_mime_type = "application/json" ∧
    npcConfig.response_schema = NPC_RESPONSE_SCHEMA ∧
    (∀ (b : Bool) (g : Except Exn Json) (up : Json → UpstreamOutcome),
        (chat_handler b g up).calls = [] ∨
          ∃ txt, (chat_handler b g up).calls = [⟨"gemini-2.5-flash", txt, npcConfig⟩]) :=
  ⟨rfl, rfl, rfl, rfl, calls_shape⟩

/-- Claim C9: processing the same request twice in sequence against the same
deterministic upstream yields identical results (body, status, calls, logs),
and the server state after both runs is the state before them: the handler
reads the client handle and mutates nothing. -/
theorem claim_C9 (st : ServerState) (g : Except Exn Json)
    (up : Json → UpstreamOutcome) :
    (handleRequest st g up).1 = (handleRequest (handleRequest st g up).2 g up).1 ∧
    (handleRequest (handleRequest st g up).2 g up).2 = st :=
  ⟨rfl, rfl⟩

/-- Claim C10: on every path — uninitialized client, parse failure,
validation failure, type errors inside the try block, upstream success,
APIError, any other exception — the handler returns (never throws) a JSON
object with a status field of OK or ERROR, a data field and no message when
OK, a string message field and no data when ERROR. -/
theorem claim_C10 (b : Bool) (g : Except Exn Json) (up : Json → UpstreamOutcome) :
    isWellFormedEnvelope (chat_handler b g up).body = true := by
  unfold chat_handler invokeUpstream unexpectedResult missingTxtResult
  repeat' split
  all_goals first
    | exact wf_errEnvelope _
    | exact wf_okEnvelope _

end RobloxGateway
